import Mathlib

/-!
Verification development for the Email-Classifier repository.

The definitions below are a shallow embedding of the repository's code:
the SQLAlchemy data model (`src/backend/src/database/models.py`,
`src/backend/src/database/enums.py`), the idempotency-key helper
(`generate_idempotency_key` in
`src/backend/tests/integration/test_idempotency.py`), and — where the
service implementations are not part of the repository snapshot — models
of the classification workflow built from the design document.
-/

/-- Email classification status, from `src/backend/src/database/enums.py`
(`class EmailStatus`). -/
inductive EmailStatus where
  | pending
  | classifying
  | classified
  | failed
  | quarantined
deriving DecidableEq, Repr

/-- Split a character list into the fields separated by the delimiter
`d`; an empty input yields one empty field, matching PostgreSQL's
`split_part` field decomposition used by the `sender_domain` column
default in `models.py`. -/
def splitFields (d : Char) : List Char → List (List Char)
  | [] => [[]]
  | c :: cs =>
      match splitFields d cs with
      | [] => [[]]
      | f :: fs => if c = d then [] :: f :: fs else (c :: f) :: fs

/-- PostgreSQL `split_part(s, d, n)` for a single-character delimiter:
the n-th (1-based) field of `s` split on `d`, or the empty string when
there are fewer than `n` fields.  This is the expression
`split_part(sender, '@', 2)` declared as the `sender_domain` server
default in `models.py`. -/
def split_part (s : String) (d : Char) (n : Nat) : String :=
  ((splitFields d s.data).getD (n - 1) []).asString

/-- A row of the `emails` table (`class Email` in `models.py`); the UUID
primary key is modelled as an opaque `Nat`. -/
structure EmailRow where
  id : Nat
  message_id : String
  sender : String
  sender_domain : String
  subject : String
  body_hash : String
  classification_status : EmailStatus
deriving DecidableEq, Repr

/-- Build an `emails` row; when no explicit `sender_domain` is supplied
the column takes its declared server default
`split_part(sender, '@', 2)` (`models.py`, `Email.sender_domain`). -/
def mkEmailRow (id : Nat) (message_id sender subject body_hash : String)
    (sender_domain : Option String) (status : EmailStatus) : EmailRow :=
  { id := id
    message_id := message_id
    sender := sender
    sender_domain := sender_domain.getD (split_part sender '@' 2)
    subject := subject
    body_hash := body_hash
    classification_status := status }

/-- Insert into the `emails` table.  The declared constraints are the
primary key on `id` and `message_id TEXT NOT NULL UNIQUE`
(`models.py` line `message_id = Column(TEXT, nullable=False,
unique=True)`); a violating insert is rejected and the table is
unchanged. -/
def insertEmail (table : List EmailRow) (r : EmailRow) : Option (List EmailRow) :=
  if table.all (fun r0 => r0.id != r.id && r0.message_id != r.message_id) then
    some (table ++ [r])
  else
    none

/-- A row of the `classifications` table (`class ClassificationResult`
in `models.py`).  `confidence` is `NUMERIC(3,2)` modelled as a rational;
`action_items` is a JSONB array modelled by its list of entries;
`rationale` is nullable. -/
structure ClassificationRow where
  id : Nat
  email_id : Nat
  primary_category : String
  secondary_categories : List String
  confidence : Rat
  rationale : Option String
  action_items : List String
  rag_context_used : List String
  schema_version : String
deriving DecidableEq, Repr

/-- The CHECK constraints of the `classifications` table
(`ClassificationResult.__table_args__` in `models.py`):
`confidence >= 0 AND confidence <= 1`,
`array_length(secondary_categories, 1) <= 3`,
`jsonb_array_length(action_items) <= 10`,
`length(rationale) <= 200` (NULL rationale passes). -/
def classificationChecks (r : ClassificationRow) : Bool :=
  decide (0 ≤ r.confidence) && decide (r.confidence ≤ 1) &&
  decide (r.secondary_categories.length ≤ 3) &&
  decide (r.action_items.length ≤ 10) &&
  (match r.rationale with
   | none => true
   | some s => decide (s.length ≤ 200))

/-- Insert into the `classifications` table.  The declared uniqueness
constraints are the primary key on `id` and `email_id ... unique=True`
(`models.py` lines 90–95): uniqueness is on the email id alone, with no
reference to `schema_version`.  A row violating uniqueness or a CHECK
constraint is rejected and the table is unchanged. -/
def insertClassification (table : List ClassificationRow) (r : ClassificationRow) :
    Option (List ClassificationRow) :=
  if table.all (fun r0 => r0.id != r.id && r0.email_id != r.email_id) &&
      classificationChecks r then
    some (table ++ [r])
  else
    none

/-- Tables of the `classifications` relation reachable from the empty
table by successful inserts. -/
inductive ReachableClassifications : List ClassificationRow → Prop where
  | nil : ReachableClassifications []
  | ins {t t2 : List ClassificationRow} {r : ClassificationRow} :
      ReachableClassifications t → insertClassification t r = some t2 →
      ReachableClassifications t2

/-- Tables of the `emails` relation reachable from the empty table by
successful inserts. -/
inductive ReachableEmails : List EmailRow → Prop where
  | nil : ReachableEmails []
  | ins {t t2 : List EmailRow} {r : EmailRow} :
      ReachableEmails t → insertEmail t r = some t2 →
      ReachableEmails t2

/-- 32-bit truncation. -/
def w32 (x : Nat) : Nat := x % 4294967296

/-- 32-bit right rotation. -/
def rotr32 (n x : Nat) : Nat := w32 ((x >>> n) ||| (x <<< (32 - n)))

/-- UTF-8 encoding of one character, as byte values. -/
def utf8EncodeCharBytes (c : Char) : List Nat :=
  let n := c.toNat
  if n < 128 then [n]
  else if n < 2048 then [192 ||| (n >>> 6), 128 ||| (n &&& 63)]
  else if n < 65536 then
    [224 ||| (n >>> 12), 128 ||| ((n >>> 6) &&& 63), 128 ||| (n &&& 63)]
  else
    [240 ||| (n >>> 18), 128 ||| ((n >>> 12) &&& 63),
     128 ||| ((n >>> 6) &&& 63), 128 ||| (n &&& 63)]

/-- UTF-8 byte sequence of a string (the Python `combined.encode()` in
`generate_idempotency_key`). -/
def utf8Bytes (s : String) : List Nat :=
  s.data.foldr (fun c acc => utf8EncodeCharBytes c ++ acc) []

/-- Big-endian byte decomposition of `n` into `k` bytes. -/
def bytesBE (k n : Nat) : List Nat :=
  (List.range k).map (fun i => (n >>> (8 * (k - 1 - i))) % 256)

/-- SHA-256 padding. -/
def shaPad (msg : List Nat) : List Nat :=
  let L := msg.length
  let z := (120 - ((L + 1) % 64)) % 64
  msg ++ [128] ++ List.replicate z 0 ++ bytesBE 8 (8 * L)

/-- Group bytes into big-endian 32-bit words. -/
def toWords : List Nat → List Nat
  | b0 :: b1 :: b2 :: b3 :: rest =>
      (((b0 * 256 + b1) * 256 + b2) * 256 + b3) :: toWords rest
  | _ => []

/-- SHA-256 round constants. -/
def shaK : List Nat :=
  [1116352408, 1899447441, 3049323471, 3921009573,
   961987163, 1508970993, 2453635748, 2870763221,
   3624381080, 310598401, 607225278, 1426881987,
   1925078388, 2162078206, 2614888103, 3248222580,
   3835390401, 4022224774, 264347078, 604807628,
   770255983, 1249150122, 1555081692, 1996064986,
   2554220882, 2821834349, 2952996808, 3210313671,
   3336571891, 3584528711, 113926993, 338241895,
   666307205, 773529912, 1294757372, 1396182291,
   1695183700, 1986661051, 2177026350, 2456956037,
   2730485921, 2820302411, 3259730800, 3345764771,
   3516065817, 3600352804, 4094571909, 275423344,
   430227734, 506948616, 659060556, 883997877,
   958139571, 1322822218, 1537002063, 1747873779,
   1955562222, 2024104815, 2227730452, 2361852424,
   2428436474, 2756734187, 3204031479, 3329325298]

/-- SHA-256 initial hash value. -/
def shaH0 : List Nat :=
  [1779033703, 3144134277, 1013904242, 2773480762,
   1359893119, 2600822924, 528734635, 1541459225]

/-- Extend the 16-word message schedule to 64 words; `fuel` counts the
remaining extension steps (48 for a full block). -/
def shaSchedule : Nat → List Nat → List Nat
  | 0, w => w
  | fuel + 1, w =>
      let i := w.length
      let w15 := w.getD (i - 15) 0
      let w2 := w.getD (i - 2) 0
      let s0 := (rotr32 7 w15) ^^^ (rotr32 18 w15) ^^^ (w15 >>> 3)
      let s1 := (rotr32 17 w2) ^^^ (rotr32 19 w2) ^^^ (w2 >>> 10)
      shaSchedule fuel (w ++ [w32 (w.getD (i - 16) 0 + s0 + w.getD (i - 7) 0 + s1)])

/-- One SHA-256 compression round on the working variables
`[a, b, c, d, e, f, g, h]`. -/
def shaRound (state : List Nat) (k w : Nat) : List Nat :=
  match state with
  | [a, b, c, d, e, f, g, h] =>
      let s1 := (rotr32 6 e) ^^^ (rotr32 11 e) ^^^ (rotr32 25 e)
      let ch := (e &&& f) ^^^ ((4294967295 ^^^ e) &&& g)
      let t1 := w32 (h + s1 + ch + k + w)
      let s0 := (rotr32 2 a) ^^^ (rotr32 13 a) ^^^ (rotr32 22 a)
      let mj := (a &&& b) ^^^ (a &&& c) ^^^ (b &&& c)
      let t2 := w32 (s0 + mj)
      [w32 (t1 + t2), a, b, c, w32 (d + t1), e, f, g]
  | s => s

/-- Run the 64 compression rounds over the round constants and the
message schedule. -/
def shaRounds : List Nat → List Nat → List Nat → List Nat
  | state, k :: ks, w :: ws => shaRounds (shaRound state k w) ks ws
  | state, _, _ => state

/-- Compress one 64-byte block into the hash state. -/
def shaCompress (h : List Nat) (block : List Nat) : List Nat :=
  let ws := shaSchedule 48 (toWords block)
  let s := shaRounds h shaK ws
  (h.zip s).map (fun p => w32 (p.1 + p.2))

/-- Process the padded message 64 bytes at a time; `fuel` is the number
of blocks. -/
def shaBlocks : Nat → List Nat → List Nat → List Nat
  | 0, h, _ => h
  | fuel + 1, h, msg => shaBlocks fuel (shaCompress h (msg.take 64)) (msg.drop 64)

/-- SHA-256 digest (32 bytes) of a byte sequence. -/
def sha256 (msg : List Nat) : List Nat :=
  let p := shaPad msg
  let h := shaBlocks (p.length / 64) shaH0 p
  h.foldr (fun w acc => bytesBE 4 w ++ acc) []

/-- Lower-case hexadecimal character for a value below 16. -/
def hexChar (n : Nat) : Char :=
  if n < 10 then Char.ofNat (48 + n) else Char.ofNat (87 + n)

/-- Lower-case hexadecimal rendering of a byte sequence (Python
`hashlib.sha256(...).hexdigest()`). -/
def hexDigest (bytes : List Nat) : String :=
  ⟨bytes.foldr (fun b acc => hexChar (b / 16) :: hexChar (b % 16) :: acc) []⟩

/-- Idempotency key for email processing, from
`src/backend/tests/integration/test_idempotency.py`
(`generate_idempotency_key`): the SHA-256 hex digest of
`"{message_id}:{schema_version}"`, with `"v2"` as the default schema
version. -/
def generate_idempotency_key (message_id : String)
    (schema_version : String := "v2") : String :=
  hexDigest (sha256 (utf8Bytes (message_id ++ ":" ++ schema_version)))

/-- Modelled from the spec: the error kinds named by the Retry Policy
Engine contract (the `src/services` implementations are not in the
repository snapshot).  Transient kinds: connectivity failures, timeouts,
rate-limit responses, transient storage errors.  Permanent kinds:
out-of-range confidence, malformed category taxonomy, schema version
mismatch, too many secondary categories/action items, constraint
violations. -/
inductive DepError where
  | connectivity
  | timeout
  | rateLimit
  | transientStorage
  | outOfRangeConfidence
  | malformedTaxonomy
  | schemaVersionMismatch
  | tooManySecondary
  | tooManyActionItems
  | constraintViolation
deriving DecidableEq, Repr

/-- Modelled from the spec: the `{transient, permanent}` discriminant
returned by `classify_error`. -/
inductive ErrorClass where
  | transient
  | permanent
deriving DecidableEq, Repr

/-- Modelled from the spec: `classify_error(err) -> {transient,
permanent}` of the Retry Policy Engine. -/
def classify_error : DepError → ErrorClass
  | .connectivity => .transient
  | .timeout => .transient
  | .rateLimit => .transient
  | .transientStorage => .transient
  | .outOfRangeConfidence => .permanent
  | .malformedTaxonomy => .permanent
  | .schemaVersionMismatch => .permanent
  | .tooManySecondary => .permanent
  | .tooManyActionItems => .permanent
  | .constraintViolation => .permanent

/-- Modelled from the spec: the structural part of a classifier judgment
that the permanent-error validation inspects (confidence, cardinalities,
schema version tag). -/
structure Payload where
  confidence : Rat
  secondary_count : Nat
  action_count : Nat
  schema_version : String
deriving DecidableEq, Repr

/-- Modelled from the spec: structural validation of a classifier
judgment; a violation is a permanent error kind. -/
def validatePayload (expectedVersion : String) (p : Payload) : Option DepError :=
  if p.confidence < 0 ∨ 1 < p.confidence then some .outOfRangeConfidence
  else if p.schema_version ≠ expectedVersion then some .schemaVersionMismatch
  else if 3 < p.secondary_count then some .tooManySecondary
  else if 10 < p.action_count then some .tooManyActionItems
  else none

/-- Modelled from the spec: one reply of the external classifier for one
attempt — either a judgment or a dependency error. -/
inductive ClassifierReply where
  | value (p : Payload)
  | failure (e : DepError)
deriving DecidableEq, Repr

/-- Observability counters of one attempt cycle: attempts made, the
retry counter incremented on every retry attempt, and the number of
transient failures fed to the circuit breaker's window. -/
structure LoopStats where
  attemptsMade : Nat
  retryMetric : Nat
  breakerFailures : Nat
deriving DecidableEq, Repr

/-- Result of one attempt cycle: a validated judgment, or an abort
carrying the error and its `{transient, permanent}` class. -/
inductive AttemptLoopResult where
  | success (p : Payload)
  | aborted (e : DepError) (c : ErrorClass)
deriving DecidableEq, Repr

/-- Modelled from the spec: the classification attempt cycle governed by
the Retry Policy.  Each list entry is the classifier's reply to the next
attempt.  A valid judgment succeeds; a permanent error (including a
structural validation failure of a returned judgment) aborts immediately
and is not fed to the breaker window; a transient error is fed to the
breaker window and retried — incrementing the retry counter — until the
configured maximum attempt count is reached, after which it becomes a
terminal failure for this cycle. -/
def attemptLoop (expectedVersion : String) (maxAttempts : Nat) :
    List ClassifierReply → Nat → LoopStats → AttemptLoopResult × LoopStats
  | [], _, st => (.aborted .timeout .transient, st)
  | reply :: rest, attemptNo, st =>
      match reply with
      | .value p =>
          let st1 := { st with attemptsMade := st.attemptsMade + 1 }
          match validatePayload expectedVersion p with
          | none => (.success p, st1)
          | some e => (.aborted e .permanent, st1)
      | .failure e =>
          match classify_error e with
          | .permanent =>
              (.aborted e .permanent, { st with attemptsMade := st.attemptsMade + 1 })
          | .transient =>
              let st1 := { st with attemptsMade := st.attemptsMade + 1,
                                   breakerFailures := st.breakerFailures + 1 }
              if attemptNo < maxAttempts then
                attemptLoop expectedVersion maxAttempts rest (attemptNo + 1)
                  { st1 with retryMetric := st1.retryMetric + 1 }
              else
                (.aborted e .transient, st1)

/-- Modelled from the spec: the circuit breaker opens when the transient
failures counted in its window reach the configured threshold; permanent
errors are never counted. -/
def breakerOpens (threshold failures : Nat) : Bool :=
  decide (threshold ≤ failures)

/-- Modelled from the spec: configuration consumed by the core — maximum
attempt count (default 3) and quarantine failure threshold
(default 3). -/
structure OrchestratorConfig where
  maxAttempts : Nat := 3
  quarantineThreshold : Nat := 3
deriving DecidableEq, Repr

/-- Modelled from the spec: the per-message state the orchestrator
mutates — the status, the consecutive-failure tally, and the schema
versions for which a ClassificationResult has been persisted (the
per-(message, schema version) idempotency ledger). -/
structure MsgState where
  status : EmailStatus
  tally : Nat
  resultVersions : List String
deriving DecidableEq, Repr

/-- Modelled from the spec: the Quarantine Manager's `record_failure`
combined with the orchestrator's step 6 — on a terminal failure the
tally is incremented, and the message transitions to `quarantined` when
the tally reaches the threshold, to `failed` otherwise. -/
def record_failure (threshold : Nat) (s : MsgState) : MsgState :=
  let t := s.tally + 1
  { s with tally := t,
           status := if threshold ≤ t then .quarantined else .failed }

/-- Modelled from the spec: normal polling pickup takes `pending`
messages and `failed` messages of earlier cycles; `quarantined` messages
are excluded until explicitly released. -/
def eligibleForPickup (st : EmailStatus) : Bool :=
  st == .pending || st == .failed

/-- Modelled from the spec: the Quarantine Manager's privileged
`release` — a quarantined message either re-enters the pipeline
(`pending`) or receives a manually supplied classification
(`classified`), and the failure tally is always reset. -/
def releaseMessage (manualReview : Bool) (s : MsgState) : MsgState :=
  if s.status = .quarantined then
    { s with status := if manualReview then .classified else .pending,
             tally := 0 }
  else s

/-- Modelled from the spec: the per-message, per-cycle driver of the
Workflow Orchestrator.  Step 1: if the idempotency key for the current
schema version is already processed, skip with no state change (third
component `true`).  Breaker open: fail fast straight to `failed` with no
attempt made.  Otherwise transition to `classifying`, run the attempt
cycle, and either persist the result, reset the tally and mark
`classified`, or record the failure through the Quarantine Manager. -/
def processMessage (cfg : OrchestratorConfig) (expectedVersion : String)
    (breakerOpen : Bool) (script : List ClassifierReply) (s : MsgState) :
    MsgState × LoopStats × Bool :=
  if expectedVersion ∈ s.resultVersions then
    (s, ⟨0, 0, 0⟩, true)
  else if breakerOpen then
    ({ s with status := .failed }, ⟨0, 0, 0⟩, false)
  else
    let s1 := { s with status := EmailStatus.classifying }
    match attemptLoop expectedVersion cfg.maxAttempts script 1 ⟨0, 0, 0⟩ with
    | (.success _, st) =>
        ({ s1 with status := .classified, tally := 0,
                   resultVersions := s1.resultVersions ++ [expectedVersion] },
         st, false)
    | (.aborted _ _, st) =>
        (record_failure cfg.quarantineThreshold s1, st, false)

/-- Rank of a status along the pipeline order `pending → classifying →
{classified | failed | quarantined}` used to state monotonicity. -/
def statusRank : EmailStatus → Nat
  | .pending => 0
  | .classifying => 1
  | .classified => 2
  | .failed => 2
  | .quarantined => 2

/-- Modelled from the spec: the events that drive one message's status —
pickup by a polling cycle, successful classification, terminal failure
of an attempt cycle, and the manual quarantine release. -/
inductive WorkflowEvent where
  | pickup
  | succeed
  | failTerminal
  | manualRelease (manualReview : Bool)
deriving DecidableEq, Repr

/-- Modelled from the spec: the state machine of section 4.6.  Pickup
moves an eligible (`pending` or `failed`) message to `classifying`;
success moves `classifying` to `classified` and resets the tally;
a terminal failure applies `record_failure`; the manual release applies
to `quarantined` only.  Events fired in a non-matching status leave the
state unchanged. -/
def workflowStep (threshold : Nat) (s : MsgState) : WorkflowEvent → MsgState
  | .pickup =>
      if eligibleForPickup s.status then { s with status := .classifying } else s
  | .succeed =>
      if s.status = .classifying then { s with status := .classified, tally := 0 }
      else s
  | .failTerminal =>
      if s.status = .classifying then record_failure threshold s else s
  | .manualRelease m => releaseMessage m s

/-- Run a sequence of workflow events from a starting state. -/
def runWorkflow (threshold : Nat) (s : MsgState) (events : List WorkflowEvent) :
    MsgState :=
  events.foldl (workflowStep threshold) s

/-- A row of the `feedback` table (`class UserFeedback` in `models.py`),
restricted to the fields the Feedback Incorporation Loop reads and
writes; `incorporated` defaults to `false` on creation. -/
structure FeedbackRecord where
  original_category : String
  corrected_category : String
  reason : Option String
  incorporated : Bool := false
deriving DecidableEq, Repr

/-- Outcome reported for processing one feedback record. -/
inductive FeedbackOutcome where
  | incorporated
  | skipped
  | failed
deriving DecidableEq, Repr

/-- Modelled from the spec: the context entry derived from a correction
("messages resembling X should map to category Y"). -/
def derivedContextEntry (r : FeedbackRecord) : String :=
  "messages resembling " ++ r.original_category ++
    " should map to category " ++ r.corrected_category

/-- Modelled from the spec: `incorporate(record)` of the Feedback
Incorporation Loop.  An already-incorporated record is a no-op reported
as `skipped` with no context write; otherwise the context entry is
written and the flag flipped to `true` in the same logical operation,
and when the context-store write fails the flag remains `false` so the
record is retried on the next drain. -/
def incorporate (writeSucceeds : Bool) (store : List String)
    (r : FeedbackRecord) : FeedbackRecord × List String × FeedbackOutcome :=
  if r.incorporated then (r, store, .skipped)
  else if writeSucceeds then
    ({ r with incorporated := true }, store ++ [derivedContextEntry r],
     .incorporated)
  else (r, store, .failed)

/-- Modelled from the spec: `pending()` of the Feedback Incorporation
Loop — the records with `incorporated = false`. -/
def pendingFeedback (rs : List FeedbackRecord) : List FeedbackRecord :=
  rs.filter (fun r => !r.incorporated)

/-- Concrete v2 classification row mirroring
`create_email_with_classification` in `test_idempotency.py`. -/
def crV2row : ClassificationRow :=
  { id := 1, email_id := 7, primary_category := "academic.coursework",
    secondary_categories := [], confidence := mkRat 17 20,
    rationale := some "Test classification", action_items := [],
    rag_context_used := [], schema_version := "v2" }

/-- Concrete v3 classification row for the same email, mirroring the v3
response of `test_different_schema_version_allows_reprocessing` in
`test_idempotency.py`. -/
def crV3row : ClassificationRow :=
  { id := 2, email_id := 7, primary_category := "academic.exams",
    secondary_categories := ["academic.coursework"], confidence := mkRat 23 25,
    rationale := some "V3 processing with improved accuracy",
    action_items := [], rag_context_used := ["chunk1"],
    schema_version := "v3" }

/-- C1: the claim says the persistence layer may simultaneously hold a
ClassificationResult for (m, v1) and one for (m, v2), with uniqueness
enforced on (message identity, schema version).  The declared schema in
`models.py` instead puts `unique=True` on `email_id` alone: a second,
otherwise valid result for the same email under a different schema
version is rejected, contradicting the repository's own test
`test_different_schema_version_allows_reprocessing`, which expects both
rows to coexist. -/
theorem c1_uniqueness_is_per_email_not_per_schema_version :
    classificationChecks crV3row = true ∧
    crV2row.email_id = crV3row.email_id ∧
    crV2row.schema_version ≠ crV3row.schema_version ∧
    insertClassification [] crV2row = some [crV2row] ∧
    insertClassification [crV2row] crV3row = none := by
  decide

/-- C2 counterexample: as stated, "any difference in either argument
yields a different key" fails on the code: the argument pairs
("a:b", "c") and ("a", "b:c") differ, yet their colon-concatenations
coincide, so `generate_idempotency_key` returns equal keys. -/
theorem c2_counterexample_distinct_arguments_equal_key :
    (("a:b", "c") : String × String) ≠ ("a", "b:c") ∧
    generate_idempotency_key "a:b" "c" = generate_idempotency_key "a" "b:c" :=
  ⟨by decide, rfl⟩

/-- C2 (amended): the key is the SHA-256 hex digest of the
concatenation "{message_id}:{schema_version}"; argument pairs with equal
concatenations always yield equal keys (in particular equal arguments
do); and case differences with the other argument fixed yield different
keys in the cited instances, `key("A","v2") ≠ key("a","v2")` and
`key("a","v2") ≠ key("a","V2")`. -/
theorem c2_key_is_sha256_of_concatenation_and_case_sensitive :
    (∀ m v : String,
        generate_idempotency_key m v =
          hexDigest (sha256 (utf8Bytes (m ++ ":" ++ v)))) ∧
    (∀ m1 v1 m2 v2 : String, m1 ++ ":" ++ v1 = m2 ++ ":" ++ v2 →
        generate_idempotency_key m1 v1 = generate_idempotency_key m2 v2) ∧
    generate_idempotency_key "A" "v2" ≠ generate_idempotency_key "a" "v2" ∧
    generate_idempotency_key "a" "v2" ≠ generate_idempotency_key "a" "V2" := by
  refine ⟨fun m v => rfl, fun m1 v1 m2 v2 h => ?_, by decide, by decide⟩
  unfold generate_idempotency_key
  rw [h]

/-- Witness for the amended C2 theorem at concrete inputs. -/
theorem c2_key_witness :
    generate_idempotency_key "x:y" "z" = generate_idempotency_key "x" "y:z" :=
  c2_key_is_sha256_of_concatenation_and_case_sensitive.2.1 "x:y" "z" "x" "y:z" rfl

/-- Helper: in a list of characters containing no occurrence of the
delimiter, `splitFields` finds the single field consisting of the whole
list. -/
theorem splitFields_no_delim (d : Char) (l : List Char)
    (h : ∀ c ∈ l, c ≠ d) : splitFields d l = [l] := by
  induction l with
  | nil => rfl
  | cons c cs ih =>
      have ih' := ih (fun x hx => h x (List.mem_cons_of_mem c hx))
      have hc : c ≠ d := h c (List.mem_cons_self c cs)
      simp [splitFields, ih', hc]

/-- C10: an `emails` row created without an explicit `sender_domain`
takes `split_part(sender, '@', 2)`: the second '@'-separated field of
the sender, which is "b.com" for "a@b.com" and the empty string when the
sender contains no '@'. -/
theorem c10_sender_domain_defaults_to_second_at_field
    (id : Nat) (message_id sender subject body_hash : String)
    (st : EmailStatus) :
    (mkEmailRow id message_id sender subject body_hash none st).sender_domain =
      split_part sender '@' 2 ∧
    (∀ s : String, (∀ c ∈ s.data, c ≠ '@') → split_part s '@' 2 = "") ∧
    split_part "a@b.com" '@' 2 = "b.com" ∧
    split_part "a@b@c" '@' 2 = "b" := by
  refine ⟨rfl, ?_, by decide, by decide⟩
  intro s hs
  unfold split_part
  rw [splitFields_no_delim '@' s.data hs]
  rfl

/-- Witness for the C10 theorem at concrete inputs. -/
theorem c10_sender_domain_witness : split_part "nodomain" '@' 2 = "" :=
  (c10_sender_domain_defaults_to_second_at_field 0 "m" "x" "s" "h"
      EmailStatus.pending).2.1 "nodomain" (by decide)

/-- C9: reachable `emails` tables have pairwise distinct message ids,
and inserting a row whose `message_id` already occurs is rejected,
leaving the table unchanged. -/
theorem c9_message_id_unique {t : List EmailRow}
    (ht : ReachableEmails t) (r : EmailRow) :
    List.Pairwise (fun a b => a.message_id ≠ b.message_id) t ∧
    ((∃ r0 ∈ t, r0.message_id = r.message_id) → insertEmail t r = none) := by
  constructor
  · induction ht with
    | nil => exact List.Pairwise.nil
    | @ins t t2 r0 hprev hins ih =>
        unfold insertEmail at hins
        split at hins
        · next hcond =>
            injection hins with h2
            subst h2
            refine List.pairwise_append.mpr ⟨ih, by simp, ?_⟩
            intro a ha b hb
            have hb' : b = r0 := by simpa using hb
            subst hb'
            have h := List.all_eq_true.mp hcond a ha
            simp only [Bool.and_eq_true, bne_iff_ne] at h
            exact h.2
        · cases hins
  · rintro ⟨r0, hr0, heq⟩
    unfold insertEmail
    rw [if_neg]
    intro hall
    have h := List.all_eq_true.mp hall r0 hr0
    simp only [Bool.and_eq_true, bne_iff_ne] at h
    exact h.2 heq

/-- Helper: every row of a reachable `classifications` table passes the
table's declared CHECK constraints. -/
theorem reachable_classifications_checks {t : List ClassificationRow}
    (ht : ReachableClassifications t) :
    ∀ r ∈ t, classificationChecks r = true := by
  induction ht with
  | nil => intro r hr; cases hr
  | @ins t t2 r0 hprev hins ih =>
      intro r hr
      unfold insertClassification at hins
      split at hins
      · next hcond =>
          injection hins with h2
          subst h2
          rcases List.mem_append.mp hr with h | h
          · exact ih r h
          · have hr0 : r = r0 := by simpa using h
            subst hr0
            simp only [Bool.and_eq_true] at hcond
            exact hcond.2
      · cases hins

/-- C3: every persisted ClassificationResult row, in every table
reachable by the persistence operations, has confidence within [0, 1],
at most 3 secondary categories, a rationale of at most 200 characters
when present, and at most 10 action items. -/
theorem c3_classification_row_invariants {t : List ClassificationRow}
    (ht : ReachableClassifications t) :
    ∀ r ∈ t, 0 ≤ r.confidence ∧ r.confidence ≤ 1 ∧
      r.secondary_categories.length ≤ 3 ∧
      (∀ s, r.rationale = some s → s.length ≤ 200) ∧
      r.action_items.length ≤ 10 := by
  intro r hr
  have hc := reachable_classifications_checks ht r hr
  unfold classificationChecks at hc
  simp only [Bool.and_eq_true, decide_eq_true_eq] at hc
  obtain ⟨⟨⟨⟨h1, h2⟩, h3⟩, h4⟩, h5⟩ := hc
  refine ⟨h1, h2, h3, ?_, h4⟩
  intro s hs
  rw [hs] at h5
  simpa using h5

/-- Concrete classification row used to exhibit a reachable table. -/
def crSample : ClassificationRow :=
  { id := 10, email_id := 5, primary_category := "admin.general",
    secondary_categories := ["career.internship"], confidence := mkRat 3 4,
    rationale := some "General administrative notice",
    action_items := ["follow up"], rag_context_used := [],
    schema_version := "v2" }

/-- Witness for the C3 invariant on a concrete reachable table. -/
theorem c3_classification_invariants_witness :
    0 ≤ crSample.confidence ∧ crSample.confidence ≤ 1 ∧
      crSample.secondary_categories.length ≤ 3 ∧
      (∀ s, crSample.rationale = some s → s.length ≤ 200) ∧
      crSample.action_items.length ≤ 10 := by
  have hreach : ReachableClassifications [crSample] :=
    ReachableClassifications.ins (r := crSample) ReachableClassifications.nil
      (by decide)
  exact c3_classification_row_invariants hreach crSample (by decide)

/-- C4: a terminal failure that brings the consecutive-failure tally to
the configured threshold transitions the message to `quarantined`, which
polling pickup excludes until the explicit release restores eligibility;
below the threshold the transition is to `failed` instead, which remains
eligible for a later cycle's pickup; the configured default threshold
is 3. -/
theorem c4_threshold_quarantines_and_excludes_from_pickup
    (threshold : Nat) (s : MsgState) :
    (threshold ≤ s.tally + 1 →
        (record_failure threshold s).status = EmailStatus.quarantined ∧
        eligibleForPickup (record_failure threshold s).status = false) ∧
    (s.tally + 1 < threshold →
        (record_failure threshold s).status = EmailStatus.failed ∧
        eligibleForPickup (record_failure threshold s).status = true) ∧
    (s.status = EmailStatus.quarantined →
        eligibleForPickup s.status = false ∧
        eligibleForPickup (releaseMessage false s).status = true) ∧
    ({} : OrchestratorConfig).quarantineThreshold = 3 := by
  refine ⟨?_, ?_, ?_, rfl⟩
  · intro h
    simp [record_failure, h, eligibleForPickup]
  · intro h
    have h' : ¬ (threshold ≤ s.tally + 1) := Nat.not_le.mpr h
    simp [record_failure, h', eligibleForPickup]
  · intro h
    simp [releaseMessage, h, eligibleForPickup]

/-- Witness for the C4 theorem: threshold 3 reached on the third
consecutive failure. -/
theorem c4_quarantine_witness :
    (record_failure 3 ⟨EmailStatus.classifying, 2, []⟩).status =
        EmailStatus.quarantined ∧
    eligibleForPickup
        (record_failure 3 ⟨EmailStatus.classifying, 2, []⟩).status = false :=
  (c4_threshold_quarantines_and_excludes_from_pickup 3
      ⟨EmailStatus.classifying, 2, []⟩).1 (by decide)

/-- Helper: after `record_failure` the status is terminal (`failed` or
`quarantined`), so its pipeline rank is 2. -/
theorem statusRank_record_failure (threshold : Nat) (s : MsgState) :
    statusRank (record_failure threshold s).status = 2 := by
  by_cases h : threshold ≤ s.tally + 1 <;> simp [record_failure, h, statusRank]

/-- C5 counterexample: the claim says that apart from the release
transition a message's status never moves backwards along
`pending → classifying → {classified | failed | quarantined}`; yet the
pickup of a `failed` message by a later polling cycle — which the design
prescribes and which is not a release — moves the status backwards from
`failed` to `classifying`. -/
theorem c5_counterexample_failed_pickup_moves_backwards :
    (workflowStep 3 ⟨EmailStatus.failed, 1, []⟩ WorkflowEvent.pickup).status =
        EmailStatus.classifying ∧
    statusRank EmailStatus.classifying < statusRank EmailStatus.failed ∧
    (∀ m : Bool, WorkflowEvent.pickup ≠ WorkflowEvent.manualRelease m) := by
  decide

/-- C5 (amended): a `quarantined` message never changes state except
through the manual release; the release sets the status to `classified`
(manual review) or `pending` and always resets the tally to 0; and apart
from the release transition and the re-pickup of a `failed` message for
reclassification, the status never moves backwards along the pipeline
order. -/
theorem c5_quarantine_exit_only_by_release_and_monotonicity
    (threshold : Nat) (s : MsgState) (e : WorkflowEvent) :
    (s.status = EmailStatus.quarantined →
        (∀ m : Bool, e ≠ WorkflowEvent.manualRelease m) →
        workflowStep threshold s e = s) ∧
    (s.status = EmailStatus.quarantined → ∀ m : Bool,
        (workflowStep threshold s (WorkflowEvent.manualRelease m)).status =
            (if m then EmailStatus.classified else EmailStatus.pending) ∧
        (workflowStep threshold s (WorkflowEvent.manualRelease m)).tally = 0) ∧
    ((∀ m : Bool, e ≠ WorkflowEvent.manualRelease m) →
        ¬(e = WorkflowEvent.pickup ∧ s.status = EmailStatus.failed) →
        statusRank s.status ≤ statusRank (workflowStep threshold s e).status) := by
  refine ⟨?_, ?_, ?_⟩
  · intro hq hnr
    cases e with
    | pickup => simp [workflowStep, eligibleForPickup, hq]
    | succeed => simp [workflowStep, hq]
    | failTerminal => simp [workflowStep, hq]
    | manualRelease m => exact absurd rfl (hnr m)
  · intro hq m
    simp [workflowStep, releaseMessage, hq]
  · intro hnr hnf
    cases e with
    | manualRelease m => exact absurd rfl (hnr m)
    | pickup =>
        cases hs : s.status with
        | failed => exact absurd ⟨rfl, hs⟩ hnf
        | pending => simp [workflowStep, eligibleForPickup, hs, statusRank]
        | classifying => simp [workflowStep, eligibleForPickup, hs, statusRank]
        | classified => simp [workflowStep, eligibleForPickup, hs, statusRank]
        | quarantined => simp [workflowStep, eligibleForPickup, hs, statusRank]
    | succeed =>
        cases hs : s.status <;> simp [workflowStep, hs, statusRank]
    | failTerminal =>
        cases hs : s.status with
        | classifying =>
            have h2 := statusRank_record_failure threshold s
            have hstep : workflowStep threshold s WorkflowEvent.failTerminal =
                record_failure threshold s := by
              simp [workflowStep, hs]
            rw [hstep, h2]
            decide
        | pending => simp [workflowStep, hs]
        | classified => simp [workflowStep, hs]
        | failed => simp [workflowStep, hs]
        | quarantined => simp [workflowStep, hs]

/-- Witness for the amended C5 theorem: a success event fired at a
quarantined message leaves it quarantined. -/
theorem c5_quarantine_witness :
    workflowStep 3 ⟨EmailStatus.quarantined, 3, []⟩ WorkflowEvent.succeed =
      ⟨EmailStatus.quarantined, 3, []⟩ :=
  (c5_quarantine_exit_only_by_release_and_monotonicity 3
      ⟨EmailStatus.quarantined, 3, []⟩ WorkflowEvent.succeed).1 rfl (by decide)

/-- C6: a permanent error — here a judgment with out-of-range confidence
1.5 — aborts after a single attempt: the message is immediately `failed`
(fresh tally, default threshold 3), the retry counter stays 0, no result
is persisted, nothing is fed to the breaker window, and a window that
receives no failures never opens the breaker. -/
theorem c6_permanent_error_single_attempt_no_retry_no_breaker :
    processMessage ({} : OrchestratorConfig) "v2" false
        [ClassifierReply.value ⟨mkRat 3 2, 0, 0, "v2"⟩]
        ⟨EmailStatus.pending, 0, []⟩ =
      (⟨EmailStatus.failed, 1, []⟩, ⟨1, 0, 0⟩, false) ∧
    (∀ e : DepError, classify_error e = ErrorClass.permanent →
      ∀ (rest : List ClassifierReply) (n : Nat) (st : LoopStats),
        attemptLoop "v2" 3 (ClassifierReply.failure e :: rest) n st =
          (AttemptLoopResult.aborted e ErrorClass.permanent,
            ⟨st.attemptsMade + 1, st.retryMetric, st.breakerFailures⟩)) ∧
    (∀ th : Nat, 1 ≤ th → breakerOpens th 0 = false) := by
  refine ⟨by decide, ?_, ?_⟩
  · intro e he rest n st
    simp [attemptLoop, he]
  · intro th h
    have h' : ¬ (th ≤ 0) := by omega
    simp [breakerOpens, h']

/-- Witness for the C6 theorem: a permanent constraint-violation error
aborts on the first attempt with no retry and no breaker feed. -/
theorem c6_permanent_error_witness :
    attemptLoop "v2" 3
        [ClassifierReply.failure DepError.constraintViolation] 1 ⟨0, 0, 0⟩ =
      (AttemptLoopResult.aborted DepError.constraintViolation
          ErrorClass.permanent, ⟨1, 0, 0⟩) :=
  c6_permanent_error_single_attempt_no_retry_no_breaker.2.1
    DepError.constraintViolation rfl [] 1 ⟨0, 0, 0⟩

/-- C7: with maximum attempt count 3, two transient classifier timeouts
followed by a success leave the message `classified` with retry metric 2
and exactly one persisted result for the ("m", "v2") pair; re-running
the same message and schema version afterwards is a fast skip that adds
no second result; three transient timeouts exhaust the budget and the
transient error becomes a terminal failure, moving the message to
`failed` within the cycle. -/
theorem c7_transient_retries_then_success_single_result :
    processMessage ({} : OrchestratorConfig) "v2" false
        [ClassifierReply.failure DepError.timeout,
         ClassifierReply.failure DepError.timeout,
         ClassifierReply.value ⟨mkRat 4 5, 0, 0, "v2"⟩]
        ⟨EmailStatus.pending, 0, []⟩ =
      (⟨EmailStatus.classified, 0, ["v2"]⟩, ⟨3, 2, 2⟩, false) ∧
    processMessage ({} : OrchestratorConfig) "v2" false
        [ClassifierReply.failure DepError.timeout,
         ClassifierReply.failure DepError.timeout,
         ClassifierReply.value ⟨mkRat 4 5, 0, 0, "v2"⟩]
        ⟨EmailStatus.classified, 0, ["v2"]⟩ =
      (⟨EmailStatus.classified, 0, ["v2"]⟩, ⟨0, 0, 0⟩, true) ∧
    processMessage ({} : OrchestratorConfig) "v2" false
        [ClassifierReply.failure DepError.timeout,
         ClassifierReply.failure DepError.timeout,
         ClassifierReply.failure DepError.timeout]
        ⟨EmailStatus.pending, 0, []⟩ =
      (⟨EmailStatus.failed, 1, []⟩, ⟨3, 2, 3⟩, false) := by
  refine ⟨by decide, by decide, by decide⟩

/-- C8: incorporating feedback mutates the `incorporated` flag only from
`false` to `true`; an already-incorporated record is a no-op reported
`skipped` with no context write; a successful incorporation writes the
derived context entry and flips the flag in the same operation; and a
failed context write leaves the flag `false`, so the record is still
returned by the pending-feedback drain. -/
theorem c8_feedback_incorporated_flag_monotone_and_idempotent
    (w : Bool) (store : List String) (r : FeedbackRecord) :
    (r.incorporated = true →
        incorporate w store r = (r, store, FeedbackOutcome.skipped)) ∧
    ((incorporate w store r).1.incorporated = true →
        r.incorporated = true ∨
          (w = true ∧
            (incorporate w store r).2.2 = FeedbackOutcome.incorporated ∧
            (incorporate w store r).2.1 = store ++ [derivedContextEntry r])) ∧
    (r.incorporated = false → w = true →
        incorporate w store r =
          ({ r with incorporated := true },
            store ++ [derivedContextEntry r], FeedbackOutcome.incorporated)) ∧
    (r.incorporated = false → w = false →
        incorporate w store r = (r, store, FeedbackOutcome.failed) ∧
        pendingFeedback [(incorporate w store r).1] =
          [(incorporate w store r).1]) := by
  cases hr : r.incorporated <;> cases hw : w <;>
    simp [incorporate, pendingFeedback, hr, hw]

/-- Witness for the C8 theorem: re-processing an already-incorporated
record reports `skipped` and leaves the context store untouched. -/
theorem c8_feedback_witness :
    incorporate true ["seed entry"]
        ⟨"admin.general", "career.internship", none, true⟩ =
      (⟨"admin.general", "career.internship", none, true⟩, ["seed entry"],
        FeedbackOutcome.skipped) :=
  (c8_feedback_incorporated_flag_monotone_and_idempotent true ["seed entry"]
      ⟨"admin.general", "career.internship", none, true⟩).1 rfl

/-- Concrete email row for the C9 witness. -/
def emRowA : EmailRow :=
  mkEmailRow 1 "msg-001" "a@b.com" "Subject" "h1" none EmailStatus.pending

/-- Second concrete email row sharing `message_id` with `emRowA`. -/
def emRowB : EmailRow :=
  mkEmailRow 2 "msg-001" "c@d.com" "Other subject" "h2" none
    EmailStatus.pending

/-- Witness for the C9 theorem: the duplicate `message_id` insert is
rejected. -/
theorem c9_message_id_unique_witness : insertEmail [emRowA] emRowB = none :=
  (c9_message_id_unique
      (ReachableEmails.ins (r := emRowA) ReachableEmails.nil (by decide))
      emRowB).2 ⟨emRowA, by decide, rfl⟩
